import Mathlib

/-!
# Verification of the decode-time engine of an OpenNMT-style summarizer

Shallow embedding of the beam-search decode loop (`onmt/translate/Translator.py`),
the recurrent decoder state (`RNNDecoderState` / `DecoderState` in `onmt/Models.py`)
and the input-feeding / standard recurrent decoder forward passes
(`InputFeedRNNDecoder._run_forward_pass`, `StdRNNDecoder._run_forward_pass`,
`RNNDecoderBase.forward`).

Tensors are modelled as shape metadata plus a total data function; indices beyond
the declared shape are a don't-care region.  The learned neural modules
(embeddings, recurrent cells, attention, context gate, dropout) are opaque
collaborators and appear as function-valued parameters, exactly as the decoder
code treats them.  Values are rationals.
-/

/-- A 2-d tensor `batch × dim` (e.g. one decoder step's output, one attention row). -/
structure Tensor2 where
  batch : Nat
  dim : Nat
  data : Nat → Nat → Rat

/-- A 3-d tensor `dim0 × batch × dim2` (e.g. `layers × batch × hidden`,
`len × batch × hidden`).  The middle dimension is the batch dimension, as in
every tensor held by `DecoderState`. -/
structure Tensor3 where
  dim0 : Nat
  batch : Nat
  dim2 : Nat
  data : Nat → Nat → Nat → Rat

/-- `t.squeeze(0)` on a `1 × batch × dim` tensor: drop the leading unit dimension. -/
def Tensor3.squeeze0 (t : Tensor3) : Tensor2 :=
  { batch := t.batch, dim := t.dim2, data := fun j k => t.data 0 j k }

/-- `t.unsqueeze(0)` on a `batch × dim` tensor: add a leading unit dimension. -/
def Tensor2.unsqueeze0 (t : Tensor2) : Tensor3 :=
  { dim0 := 1, batch := t.batch, dim2 := t.dim, data := fun _ j k => t.data j k }

/-- `torch.cat([a, b], 1)`: concatenate two `batch × _` tensors along dim 1. -/
def Tensor2.cat1 (a b : Tensor2) : Tensor2 :=
  { batch := a.batch, dim := a.dim + b.dim,
    data := fun j k => if k < a.dim then a.data j k else b.data j (k - a.dim) }

/-- Pointwise addition (`coverage + p_attn` in the decoder loop). -/
def Tensor2.add (a b : Tensor2) : Tensor2 :=
  { batch := a.batch, dim := a.dim, data := fun j k => a.data j k + b.data j k }

instance : Add Tensor2 := ⟨Tensor2.add⟩

/-- `e.data.repeat(1, beam_size, 1)`: tile the batch dimension `beam_size` times.
Position `j` of the result reads position `j % batch` of the input. -/
def Tensor3.repeat1 (e : Tensor3) (beam_size : Nat) : Tensor3 :=
  { dim0 := e.dim0, batch := e.batch * beam_size, dim2 := e.dim2,
    data := fun i j k => e.data i (j % e.batch) k }

/-- The per-tensor body of `DecoderState.beam_update` (Models.py 1633-1647), 3-d
branch.  The batch dimension is viewed as `beam_size × (batch / beam_size)`
(beam-major, matching the `rvar`/`repeat` layout), the slice of example `idx`
is overwritten by `index_select(1, positions)` of itself, and every other
example's slice is untouched.  `index_select` materialises a fresh tensor
before `copy_`, so the update is a pure gather. -/
def Tensor3.beam_update (e : Tensor3) (idx : Nat) (positions : List Nat)
    (beam_size : Nat) : Tensor3 :=
  let numEx := e.batch / beam_size
  { dim0 := e.dim0, batch := e.batch, dim2 := e.dim2,
    data := fun i j k =>
      if j % numEx = idx then
        e.data i (positions.getD (j / numEx) 0 * numEx + idx) k
      else
        e.data i j k }

/-- Decoder state of the recurrent decoder (`RNNDecoderState`, Models.py
1650-1688): the tuple of hidden tensors, the input-feed vector
(`1 × batch × hidden`) and the optional coverage vector. -/
structure RNNDecoderState where
  hidden : List Tensor3
  input_feed : Tensor3
  coverage : Option Tensor3

/-- The `rnnstate` argument of `RNNDecoderState.__init__` / `update_state`:
either a bare tensor (GRU) or a tuple of tensors (LSTM). -/
def normalizeRnnState : Tensor3 ⊕ List Tensor3 → List Tensor3
  | Sum.inl t => [t]
  | Sum.inr ts => ts

/-- Fallback tensor used only where Python would raise on an empty hidden tuple. -/
def zeroT3 : Tensor3 := { dim0 := 0, batch := 0, dim2 := 0, data := fun _ _ _ => 0 }

/-- `RNNDecoderState.__init__` (Models.py 1650-1668): normalize the encoder
final state into a tuple, set coverage to `None`, and build a zero input feed
of shape `(batch, hidden_size)` then `unsqueeze(0)`, where `batch` is
`hidden[0].size(1)`.  (On an empty tuple Python would raise; `headD zeroT3`
covers that dead branch.) -/
def RNNDecoderState.init (hidden_size : Nat) (rnnstate : Tensor3 ⊕ List Tensor3) :
    RNNDecoderState :=
  let hidden := normalizeRnnState rnnstate
  let batch_size := (hidden.headD zeroT3).batch
  { hidden := hidden,
    coverage := none,
    input_feed :=
      Tensor2.unsqueeze0 { batch := batch_size, dim := hidden_size, data := fun _ _ => 0 } }

/-- `self._all = self.hidden + (self.input_feed,)` (Models.py 1670-1672). -/
def RNNDecoderState.all (s : RNNDecoderState) : List Tensor3 :=
  s.hidden ++ [s.input_feed]

/-- `RNNDecoderState.update_state` (Models.py 1674-1680): replace all three
fields, normalizing a bare tensor into a one-element tuple. -/
def RNNDecoderState.update_state (rnnstate : Tensor3 ⊕ List Tensor3)
    (input_feed : Tensor3) (coverage : Option Tensor3) : RNNDecoderState :=
  { hidden := normalizeRnnState rnnstate,
    input_feed := input_feed,
    coverage := coverage }

/-- `RNNDecoderState.repeat_beam_size_times` (Models.py 1682-1687): every tensor
in `_all` is repeated `beam_size` times along the batch dimension; the repeated
list is split back into the hidden tuple and the input feed. -/
def RNNDecoderState.repeat_beam_size_times (s : RNNDecoderState) (beam_size : Nat) :
    RNNDecoderState :=
  { hidden := s.hidden.map (fun e => e.repeat1 beam_size),
    input_feed := s.input_feed.repeat1 beam_size,
    coverage := s.coverage }

/-- `DecoderState.beam_update` (Models.py 1633-1647) specialised to the state of
the recurrent decoder: apply the per-tensor gather to every tensor in `_all`
(the hidden tuple and the input feed; coverage is not in `_all`). -/
def RNNDecoderState.beam_update (s : RNNDecoderState) (idx : Nat)
    (positions : List Nat) (beam_size : Nat) : RNNDecoderState :=
  { hidden := s.hidden.map (fun e => e.beam_update idx positions beam_size),
    input_feed := s.input_feed.beam_update idx positions beam_size,
    coverage := s.coverage }

/-- The target-token tensor `tgt` (`tgt_len × batch × nfeats`). -/
structure TokTensor where
  len : Nat
  batch : Nat
  nfeats : Nat
  data : Nat → Nat → Nat → Nat

/-- Abort reasons of the decoder forward path: `aeq` assertion failures
(batch/size mismatches), indexing an empty output list, and the
`assert not self._copy` / `assert not self._coverage` guards of the
standard (non-input-feeding) decoder. -/
inductive DecodeError where
  | sizeMismatch
  | emptyTarget
  | copyNotSupported
  | coverageNotSupported
deriving DecidableEq

/-- The learned modules the input-feeding decoder composes, plus its two
configuration flags.  `embeddings` returns the per-step split
`emb.split(1)` of the embedded target (the embedding module maps each step
independently); `rnn` is the stacked recurrent cell; `attn` is the (global or
hierarchical) attention module applied to a query and the memory bank (its
`memory_lengths`, `emb_weight` and `idf_weights` arguments are folded into the
opaque function); `context_gate` and `dropout` as in the source.
`copyAttn` and `coverageAttn` embed `self._copy` and `self._coverage`. -/
structure DecoderNets where
  embeddings : TokTensor → List Tensor2
  rnn : Tensor2 → List Tensor3 → Tensor2 × List Tensor3
  attn : Tensor2 → Tensor3 → Tensor2 × Tensor2
  context_gate : Option (Tensor2 → Tensor2 → Tensor2 → Tensor2)
  dropout : Tensor2 → Tensor2
  copyAttn : Bool
  coverageAttn : Bool

/-- The loop-carried variables of `InputFeedRNNDecoder._run_forward_pass`
(Models.py 610-652): `input_feed`, `hidden` and `coverage`. -/
structure IFState where
  input_feed : Tensor2
  hidden : List Tensor3
  coverage : Option Tensor2

/-- What one iteration of the input-feeding loop produces: the emitted
`decoder_output`, the attention row `p_attn`, the entry appended to
`attns["coverage"]` (empty when coverage is disabled) and the updated
loop-carried state. -/
structure IFStepOut where
  decoder_output : Tensor2
  p_attn : Tensor2
  cov_append : List Tensor2
  next : IFState

/-- One iteration of the loop body of `InputFeedRNNDecoder._run_forward_pass`
(Models.py 610-652): concatenate the step embedding with the input feed, run
the recurrent cell, run attention on the raw recurrent output, optionally gate,
apply dropout, emit the result and make it the next input feed; when coverage
is enabled, accumulate `coverage + p_attn` (or start from `p_attn`). -/
def input_feed_step (nets : DecoderNets) (memory_bank : Tensor3) (emb_t : Tensor2)
    (s : IFState) : IFStepOut :=
  let decoder_input := emb_t.cat1 s.input_feed
  let rnnOut := nets.rnn decoder_input s.hidden
  let attnOut := nets.attn rnnOut.1 memory_bank
  let gated :=
    match nets.context_gate with
    | some g => g decoder_input rnnOut.1 attnOut.1
    | none => attnOut.1
  let decoder_output := nets.dropout gated
  if nets.coverageAttn then
    let coverage :=
      match s.coverage with
      | some c => c + attnOut.2
      | none => attnOut.2
    { decoder_output := decoder_output, p_attn := attnOut.2,
      cov_append := [coverage],
      next := { input_feed := decoder_output, hidden := rnnOut.2,
                coverage := some coverage } }
  else
    { decoder_output := decoder_output, p_attn := attnOut.2,
      cov_append := [],
      next := { input_feed := decoder_output, hidden := rnnOut.2,
                coverage := s.coverage } }

/-- Accumulated lists of the input-feeding loop plus its final loop state. -/
structure IFLoopOut where
  decoder_outputs : List Tensor2
  stds : List Tensor2
  covs : List Tensor2
  final : IFState

/-- The `for i, emb_t in enumerate(emb.split(1))` loop of
`InputFeedRNNDecoder._run_forward_pass`, folded over the per-step embeddings. -/
def input_feed_loop (nets : DecoderNets) (memory_bank : Tensor3) :
    List Tensor2 → IFState → IFLoopOut
  | [], s => { decoder_outputs := [], stds := [], covs := [], final := s }
  | emb_t :: rest, s =>
    let st := input_feed_step nets memory_bank emb_t s
    let r := input_feed_loop nets memory_bank rest st.next
    { decoder_outputs := st.decoder_output :: r.decoder_outputs,
      stds := st.p_attn :: r.stds,
      covs := st.cov_append ++ r.covs,
      final := r.final }

/-- The attention-trace dictionary returned by a decoder forward pass:
`"std"` always, `"copy"` when copy attention is on (aliasing `"std"`, Models.py
651-652), `"coverage"` when coverage attention is on. -/
structure DecoderAttns where
  std : List Tensor2
  copy : Option (List Tensor2)
  coverage : Option (List Tensor2)

/-- `InputFeedRNNDecoder._run_forward_pass` (Models.py 572-655): assert
`tgt_batch == input_feed_batch` (`aeq`, 577-581, an `AssertionError` on
mismatch), embed the target, fold the per-step loop starting from the state's
input feed, hidden tuple and (squeezed) coverage, and return the final hidden
tuple, the per-step outputs and the attention dictionary. -/
def input_feed_run_forward_pass (nets : DecoderNets) (tgt : TokTensor)
    (memory_bank : Tensor3) (state : RNNDecoderState) :
    Except DecodeError (List Tensor3 × List Tensor2 × DecoderAttns) :=
  let input_feed := state.input_feed.squeeze0
  if tgt.batch = input_feed.batch then
    let emb := nets.embeddings tgt
    let coverage := state.coverage.map Tensor3.squeeze0
    let r := input_feed_loop nets memory_bank emb
      { input_feed := input_feed, hidden := state.hidden, coverage := coverage }
    Except.ok (r.final.hidden, r.decoder_outputs,
      { std := r.stds,
        copy := if nets.copyAttn then some r.stds else none,
        coverage := if nets.coverageAttn then some r.covs else none })
  else
    Except.error DecodeError.sizeMismatch

/-- Lines 425-427 of `RNNDecoderBase.forward`: when the `"coverage"` trace is
present, the value written back into the state is its last row, `unsqueeze(0)`.
(Python indexes `attns["coverage"][-1]` only after `decoder_outputs[-1]`
succeeded; the two lists have equal length, so the `none` fallback of
`getLast?` here is dead code.) -/
def coverage_writeback (covOpt : Option (List Tensor2)) : Option Tensor3 :=
  match covOpt with
  | some covs =>
    match covs.getLast? with
    | some c => some c.unsqueeze0
    | none => none
  | none => none

/-- `RNNDecoderBase.forward` (Models.py 390-435) with the input-feeding pass:
assert `tgt_batch == memory_batch` (`aeq`, 412-417), run the forward pass, take
the last output (`decoder_outputs[-1]`, an `IndexError` on an empty target —
modelled as `emptyTarget`), extract the last coverage row if present, write
hidden/input-feed/coverage back into the state via `update_state`, and return
the outputs, the updated state and the attention traces. -/
def rnn_decoder_forward (nets : DecoderNets) (tgt : TokTensor)
    (memory_bank : Tensor3) (state : RNNDecoderState) :
    Except DecodeError (List Tensor2 × RNNDecoderState × DecoderAttns) :=
  if tgt.batch = memory_bank.batch then
    match input_feed_run_forward_pass nets tgt memory_bank state with
    | Except.error e => Except.error e
    | Except.ok (decoder_final, decoder_outputs, attns) =>
      match decoder_outputs.getLast? with
      | none => Except.error DecodeError.emptyTarget
      | some final_output =>
        let coverage := coverage_writeback attns.coverage
        let newState :=
          RNNDecoderState.update_state (Sum.inr decoder_final)
            final_output.unsqueeze0 coverage
        Except.ok (decoder_outputs, newState, attns)
  else
    Except.error DecodeError.sizeMismatch

/-- Observation of one `Beam` object of the decode loop.  The `Beam` class
lives in `onmt.translate.Beam`, outside the decoder/translator sources; the
decode loop of `Translator.translate_batch` reads exactly one bit from it at
the top of each iteration: `b.done()`. -/
structure BeamHandle where
  done : Bool

/-- The state threaded through the decode loop of
`Translator.translate_batch`: the per-example beams and the decoder state
(both are mutated by each iteration's body). -/
structure TranslateLoopState where
  beams : List BeamHandle
  dec_states : RNNDecoderState

/-- `all((b.done() for b in beam))` (Translator.py 505). -/
def all_beams_done (s : TranslateLoopState) : Bool :=
  s.beams.all (fun b => b.done)

/-- The decode loop of `Translator.translate_batch` (Translator.py 504-506):
`for i in range(self.max_length): if all((b.done() for b in beam)): break; ...`.
The fuel argument is `self.max_length`; `body` is the loop body (one decoder
step plus beam advances and state reindexing).  Returns the final state and
the number of decoder steps (body executions) performed. -/
def translate_decode_loop (body : TranslateLoopState → TranslateLoopState) :
    Nat → TranslateLoopState → TranslateLoopState × Nat
  | 0, s => (s, 0)
  | n + 1, s =>
    if all_beams_done s then (s, 0)
    else
      let r := translate_decode_loop body n (body s)
      (r.1, r.2 + 1)

/-- `Translator.translate_batch`, step (3) entry point: run the decode loop
for at most `max_length` iterations. -/
def translate_batch_decode (body : TranslateLoopState → TranslateLoopState)
    (max_length : Nat) (s : TranslateLoopState) : TranslateLoopState × Nat :=
  translate_decode_loop body max_length s

/-- "Turn any copied words to UNKs" (Translator.py 515-519): when copy
attention is enabled, the frontier token vector `inp` is transformed by
`inp.masked_fill(inp.gt(len(tgt_vocab) - 1), 0)` before being fed to the next
decoder step; `0` is the unknown-token id.  Without copy attention `inp` is
fed unchanged. -/
def turn_copied_words_to_unk (copy_attn : Bool) (tgt_vocab_len : Nat)
    (inp : List Nat) : List Nat :=
  if copy_attn then
    inp.map (fun t => if tgt_vocab_len - 1 < t then 0 else t)
  else
    inp

/-- Which decoder subclass was instantiated. -/
inductive DecoderKind where
  | std
  | input_feed
deriving DecidableEq

/-- Recurrent cell families distinguished by `_build_rnn`. -/
inductive RnnType where
  | LSTM
  | GRU
  | SRU
deriving DecidableEq

/-- The configuration fields `RNNDecoderBase.__init__` (Models.py 334-388)
stores for later use by the forward passes: which subclass the object is and
the `self._coverage` / `self._copy` flags (set from `coverage_attn` and
`copy_attn` with no validation). -/
structure DecoderFlags where
  kind : DecoderKind
  coverageAttn : Bool
  copyAttn : Bool
deriving DecidableEq

/-- The only rejection performed during decoder construction. -/
inductive SetupError where
  | sruWithInputFeed
deriving DecidableEq

/-- Decoder setup: `RNNDecoderBase.__init__` (Models.py 334-388).  It records
`self._coverage := coverage_attn` (line 366) and `self._copy := copy_attn`
(lines 381-387) and builds the recurrent cell via the subclass's
`_build_rnn`; the only assertion reachable at construction time is
`InputFeedRNNDecoder._build_rnn`'s rejection of SRU cells (Models.py
657-660).  No combination of decoder kind and copy/coverage flags is
rejected at setup. -/
def build_decoder (kind : DecoderKind) (rnn_type : RnnType)
    (coverage_attn copy_attn : Bool) : Except SetupError DecoderFlags :=
  match kind, rnn_type with
  | DecoderKind.input_feed, RnnType.SRU => Except.error SetupError.sruWithInputFeed
  | _, _ => Except.ok { kind := kind, coverageAttn := coverage_attn, copyAttn := copy_attn }

/-- Learned modules of the standard (non-input-feeding) decoder
(`StdRNNDecoder`): the embedded target is run through the recurrent cell in
one batched call (`Tensor3` of shape `len × batch × _`), attention is applied
afterwards over the whole sequence.  For a GRU cell the hidden tuple's first
tensor is passed (`state.hidden[0]`, Models.py 500-503), otherwise the whole
tuple; `decoder_final` is a bare tensor or a tuple accordingly.  The context
gate's flatten/reshape plumbing is folded into the opaque gate function.
`copyAttn` / `coverageAttn` embed `self._copy` / `self._coverage`. -/
structure StdDecoderNets where
  isGRU : Bool
  embeddings : TokTensor → Tensor3
  rnn : Tensor3 → (Tensor3 ⊕ List Tensor3) → Tensor3 × (Tensor3 ⊕ List Tensor3)
  attn : Tensor3 → Tensor3 → Tensor3 × Tensor3
  context_gate : Option (Tensor3 → Tensor3 → Tensor3 → Tensor3)
  dropout : Tensor3 → Tensor3
  copyAttn : Bool
  coverageAttn : Bool

/-- `StdRNNDecoder._run_forward_pass` (Models.py 472-531): the first two
statements are `assert not self._copy` and `assert not self._coverage`
(lines 492-493) — they fire before any embedding, recurrence or attention is
computed.  Then: embed, one batched recurrent call, `aeq` size checks
(506-509), sequence-level attention, optional context gate, dropout. -/
def std_run_forward_pass (nets : StdDecoderNets) (tgt : TokTensor)
    (memory_bank : Tensor3) (state : RNNDecoderState) :
    Except DecodeError ((Tensor3 ⊕ List Tensor3) × Tensor3 × Tensor3) :=
  if nets.copyAttn then
    Except.error DecodeError.copyNotSupported
  else if nets.coverageAttn then
    Except.error DecodeError.coverageNotSupported
  else
    let emb := nets.embeddings tgt
    let hidden0 : Tensor3 ⊕ List Tensor3 :=
      if nets.isGRU then Sum.inl (state.hidden.headD zeroT3) else Sum.inr state.hidden
    let rnnOut := nets.rnn emb hidden0
    if tgt.len = rnnOut.1.dim0 ∧ tgt.batch = rnnOut.1.batch then
      let attnOut := nets.attn rnnOut.1 memory_bank
      let gated :=
        match nets.context_gate with
        | some g => g emb rnnOut.1 attnOut.1
        | none => attnOut.1
      Except.ok (rnnOut.2, nets.dropout gated, attnOut.2)
    else
      Except.error DecodeError.sizeMismatch

/-- Exceptions a score report can raise past its `try` block. -/
inductive PyNumError where
  | zeroDivisionError
deriving DecidableEq

/-- What `Translator._report_score` prints on its non-raising paths. -/
inductive ReportOutcome where
  | scoreLine (avg pplExponent : Rat)
  | overflowLogged
deriving DecidableEq

/-- `Translator._report_score` (Translator.py 714-722): inside a `try` block
it computes `score_total / words_total` (raising `ZeroDivisionError` when
`words_total == 0`) and `math.exp(-score_total / words_total)` (raising
`OverflowError` for large exponents — the float-dependent overflow test is
the `expOverflows` parameter); the `except` clause catches **only**
`OverflowError` and logs it locally.  A `ZeroDivisionError` matches no
handler and propagates out of the call. -/
def report_score (expOverflows : Rat → Bool) (score_total : Rat)
    (words_total : Int) : Except PyNumError ReportOutcome :=
  if words_total = 0 then
    Except.error PyNumError.zeroDivisionError
  else
    let avg := score_total / (words_total : Rat)
    if expOverflows (-avg) then
      Except.ok ReportOutcome.overflowLogged
    else
      Except.ok (ReportOutcome.scoreLine avg (-avg))

/-- Default 2-d tensor for `List.getD` on trace lists. -/
def zeroT2 : Tensor2 := { batch := 0, dim := 0, data := fun _ _ => 0 }

/-- Every tensor held by the state (the hidden tuple and the input feed) has
batch dimension `b`.  This is the batch-dimension invariant of the spec's
DecoderState section. -/
def RNNDecoderState.batch_dims_are (s : RNNDecoderState) (b : Nat) : Prop :=
  (∀ t ∈ s.hidden, t.batch = b) ∧ s.input_feed.batch = b

/-- Two 3-d tensors have the same shape. -/
def Tensor3.shapeEq (a b : Tensor3) : Prop :=
  a.dim0 = b.dim0 ∧ a.batch = b.batch ∧ a.dim2 = b.dim2

/-- The loop run performed inside `input_feed_run_forward_pass` once its size
check has passed: fold over the embedded target starting from the state's
(squeezed) input feed, hidden tuple and coverage. -/
def forward_loop (nets : DecoderNets) (tgt : TokTensor) (memory_bank : Tensor3)
    (state : RNNDecoderState) : IFLoopOut :=
  input_feed_loop nets memory_bank (nets.embeddings tgt)
    { input_feed := state.input_feed.squeeze0,
      hidden := state.hidden,
      coverage := state.coverage.map Tensor3.squeeze0 }

/-- Specification-side restatement of the coverage recurrence
`coverage_t = coverage_(t-1) + attention_t` (with `coverage_0` the first
attention row when no coverage comes in): the list of partial sums of the
attention rows starting from an optional initial coverage. -/
def accum_coverage (c : Option Tensor2) : List Tensor2 → List Tensor2
  | [] => []
  | a :: rest =>
    match c with
    | some cv => (cv + a) :: accum_coverage (some (cv + a)) rest
    | none => a :: accum_coverage (some a) rest

/-- A loop body that leaves the decode state unchanged (witness fixture). -/
def idBody : TranslateLoopState → TranslateLoopState := fun s => s

/-- Witness fixture: a `1 × 2 × 3` tensor. -/
def wT3 : Tensor3 := { dim0 := 1, batch := 2, dim2 := 3, data := fun _ _ _ => 0 }

/-- Witness fixture: an input-feed tensor of batch 2. -/
def wIF3 : Tensor3 := { dim0 := 1, batch := 2, dim2 := 3, data := fun _ _ _ => 0 }

/-- Witness fixture: a decoder state of batch dimension 2. -/
def wState : RNNDecoderState :=
  { hidden := [wT3], input_feed := wIF3, coverage := none }

/-- Witness fixture: a decode-loop state whose single beam is done. -/
def doneLoopStateW : TranslateLoopState :=
  { beams := [{ done := true }], dec_states := wState }

/-- Witness fixture: input-feeding decoder modules with trivial functions and
coverage attention enabled. -/
def netsW : DecoderNets :=
  { embeddings := fun _ => [zeroT2],
    rnn := fun x h => (x, h),
    attn := fun q _ => (q, q),
    context_gate := none,
    dropout := fun x => x,
    copyAttn := false,
    coverageAttn := true }

/-- Witness fixture: an initial loop state with no incoming coverage. -/
def s0W : IFState := { input_feed := zeroT2, hidden := [], coverage := none }

/-- Witness fixture: a target tensor of batch 2. -/
def tokW : TokTensor := { len := 1, batch := 2, nfeats := 1, data := fun _ _ _ => 0 }

/-- Witness fixture: a memory bank of batch 2. -/
def mbW : Tensor3 := { dim0 := 4, batch := 2, dim2 := 3, data := fun _ _ _ => 0 }

/-- Witness fixture: standard-decoder modules with copy attention enabled. -/
def stdNetsW : StdDecoderNets :=
  { isGRU := false,
    embeddings := fun _ => wT3,
    rnn := fun x h => (x, h),
    attn := fun q _ => (q, q),
    context_gate := none,
    dropout := fun x => x,
    copyAttn := true,
    coverageAttn := false }

/-- Overflow model in which `math.exp` always overflows. -/
def expOvTrue : Rat → Bool := fun _ => true

/-- Overflow model in which `math.exp` never overflows. -/
def expOvFalse : Rat → Bool := fun _ => false

/-- Claim C1: every call to `Translator.translate_batch` executes at most
`max_length` decoding timesteps, and the all-beams-done predicate is evaluated
at the top of each iteration — whenever it holds, the loop exits before
running another decoder step (zero further body executions). -/
theorem decode_loop_bounded_and_exits_when_done :
    ∀ (body : TranslateLoopState → TranslateLoopState) (max_length : Nat)
      (s : TranslateLoopState),
      (translate_batch_decode body max_length s).2 ≤ max_length ∧
      (all_beams_done s = true → translate_batch_decode body max_length s = (s, 0)) := by
  have hle : ∀ (body : TranslateLoopState → TranslateLoopState) (n : Nat)
      (s : TranslateLoopState), (translate_decode_loop body n s).2 ≤ n := by
    intro body n
    induction n with
    | zero => intro s; simp [translate_decode_loop]
    | succ n ih =>
      intro s
      simp only [translate_decode_loop]
      split
      · simp
      · simpa using Nat.succ_le_succ (ih (body s))
  intro body n s
  refine ⟨hle body n s, fun hdone => ?_⟩
  cases n with
  | zero => rfl
  | succ n => simp [translate_batch_decode, translate_decode_loop, hdone]

/-- Witness for C1: at a state whose beams are all done, five budgeted
iterations perform zero decoder steps. -/
theorem decode_loop_bounded_witness :
    translate_batch_decode idBody 5 doneLoopStateW = (doneLoopStateW, 0) :=
  (decode_loop_bounded_and_exits_when_done idBody 5 doneLoopStateW).2 rfl

/-- Claim C2: `repeat_beam_size_times` multiplies the batch dimension of every
tensor inside the state (each hidden tensor and the input feed) by the beam
width, and the subsequent state operations preserve that batch dimension:
`beam_update` leaves every batch dimension unchanged, and `update_state`
applied to step outputs of batch dimension `b` yields a state whose tensors
all have batch dimension `b`. -/
theorem state_batch_dim_invariant :
    ∀ (s : RNNDecoderState) (b beam_size : Nat),
      (s.batch_dims_are b →
        (s.repeat_beam_size_times beam_size).batch_dims_are (b * beam_size)) ∧
      (∀ (idx : Nat) (positions : List Nat), s.batch_dims_are b →
        (s.beam_update idx positions beam_size).batch_dims_are b) ∧
      (∀ (rnnstate : Tensor3 ⊕ List Tensor3) (input_feed : Tensor3)
          (coverage : Option Tensor3),
        (∀ t ∈ normalizeRnnState rnnstate, t.batch = b) → input_feed.batch = b →
        (RNNDecoderState.update_state rnnstate input_feed coverage).batch_dims_are b) := by
  intro s b bs
  refine ⟨?_, ?_, ?_⟩
  · rintro ⟨hh, hf⟩
    constructor
    · intro t ht
      simp only [RNNDecoderState.repeat_beam_size_times, List.mem_map] at ht
      obtain ⟨u, hu, rfl⟩ := ht
      simp [Tensor3.repeat1, hh u hu]
    · simp [RNNDecoderState.repeat_beam_size_times, Tensor3.repeat1, hf]
  · rintro idx positions ⟨hh, hf⟩
    constructor
    · intro t ht
      simp only [RNNDecoderState.beam_update, List.mem_map] at ht
      obtain ⟨u, hu, rfl⟩ := ht
      simpa [Tensor3.beam_update] using hh u hu
    · simpa [RNNDecoderState.beam_update, Tensor3.beam_update] using hf
  · intro rnnstate input_feed coverage hh hf
    exact ⟨hh, hf⟩

/-- Witness for C2: replicating a batch-2 state 3 times yields batch
dimension 6 everywhere. -/
theorem state_batch_dim_invariant_witness :
    (wState.repeat_beam_size_times 3).batch_dims_are (2 * 3) :=
  (state_batch_dim_invariant wState 2 3).1
    ⟨fun t ht => by rw [List.mem_singleton.mp ht]; rfl, rfl⟩

/-- `beam_update` copies the shape fields of its tensor unchanged. -/
theorem beam_update_shape (e : Tensor3) (idx : Nat) (positions : List Nat)
    (bs : Nat) : (e.beam_update idx positions bs).shapeEq e :=
  ⟨rfl, rfl, rfl⟩

/-- On a tensor whose batch dimension is `beam_size × numEx`, `beam_update`
rewrites slot `(b, idx)` with the old slot `(positions[b], idx)`. -/
theorem beam_update_gather (e : Tensor3) (idx : Nat) (positions : List Nat)
    (bs numEx : Nat) (hbs : 0 < bs) (hidx : idx < numEx)
    (hbatch : e.batch = bs * numEx) :
    ∀ i b k, (e.beam_update idx positions bs).data i (b * numEx + idx) k
      = e.data i (positions.getD b 0 * numEx + idx) k := by
  intro i b k
  have hnum : e.batch / bs = numEx := by rw [hbatch, Nat.mul_div_cancel_left _ hbs]
  have hpos : 0 < numEx := Nat.lt_of_le_of_lt (Nat.zero_le idx) hidx
  have hmod : (b * numEx + idx) % numEx = idx := by
    rw [Nat.mul_comm b numEx, Nat.mul_add_mod, Nat.mod_eq_of_lt hidx]
  have hdiv : (b * numEx + idx) / numEx = b := by
    rw [Nat.mul_comm b numEx, Nat.mul_add_div hpos, Nat.div_eq_of_lt hidx, Nat.add_zero]
  simp [Tensor3.beam_update, hnum, hmod, hdiv]

/-- `beam_update` leaves the slices of every example other than `idx`
untouched. -/
theorem beam_update_frame (e : Tensor3) (idx : Nat) (positions : List Nat)
    (bs numEx : Nat) (hbs : 0 < bs) (hbatch : e.batch = bs * numEx) :
    ∀ i j k, j % numEx ≠ idx →
      (e.beam_update idx positions bs).data i j k = e.data i j k := by
  intro i j k hj
  have hnum : e.batch / bs = numEx := by rw [hbatch, Nat.mul_div_cancel_left _ hbs]
  simp [Tensor3.beam_update, hnum, hj]

/-- Claim C3: `beam_update(idx, positions, beam_size)` transforms exactly the
tensors of `_all`, preserves the shape of every tensor in the state (and
leaves `coverage` untouched), reorders the beam slots of example `idx` as a
pure gather according to `positions`, and leaves the slices belonging to
every other example unchanged. -/
theorem beam_update_is_pure_gather :
    ∀ (s : RNNDecoderState) (idx : Nat) (positions : List Nat)
      (beam_size numEx : Nat), 0 < beam_size → idx < numEx →
      (s.beam_update idx positions beam_size).all
          = s.all.map (fun e => e.beam_update idx positions beam_size) ∧
      (∀ e ∈ s.all, (e.beam_update idx positions beam_size).shapeEq e) ∧
      (s.beam_update idx positions beam_size).coverage = s.coverage ∧
      (∀ e ∈ s.all, e.batch = beam_size * numEx →
        ∀ i b k, (e.beam_update idx positions beam_size).data i (b * numEx + idx) k
          = e.data i (positions.getD b 0 * numEx + idx) k) ∧
      (∀ e ∈ s.all, e.batch = beam_size * numEx →
        ∀ i j k, j % numEx ≠ idx →
          (e.beam_update idx positions beam_size).data i j k = e.data i j k) := by
  intro s idx positions bs numEx hbs hidx
  refine ⟨?_, fun e _ => beam_update_shape e idx positions bs, rfl, ?_, ?_⟩
  · simp [RNNDecoderState.beam_update, RNNDecoderState.all]
  · intro e _ hb
    exact beam_update_gather e idx positions bs numEx hbs hidx hb
  · intro e _ hb i j k hj
    exact beam_update_frame e idx positions bs numEx hbs hb i j k hj

/-- Witness for C3: with beam width 2 and a single source example, slot 1's
parent index 0 is gathered into slot 1 of the input feed. -/
theorem beam_update_is_pure_gather_witness :
    (wIF3.beam_update 0 [1, 0] 2).data 0 (1 * 1 + 0) 0
      = wIF3.data 0 ([1, 0].getD 1 0 * 1 + 0) 0 :=
  (beam_update_is_pure_gather wState 0 [1, 0] 2 1 (by decide) (by decide)).2.2.2.1
    wIF3 (by simp [RNNDecoderState.all, wState]) rfl 0 1 0

/-- Claim C4: with copy attention enabled, the frontier token transformation
applied before the next step's embedding lookup preserves the vector's
length, replaces every token id that exceeds the fixed target-vocabulary
size by the unknown-token id 0, and feeds ids within the fixed vocabulary
back unchanged. -/
theorem copy_frontier_oov_masked :
    ∀ (V : Nat) (inp : List Nat) (i : Nat), i < inp.length →
      (turn_copied_words_to_unk true V inp).length = inp.length ∧
      (V < inp.getD i 0 → (turn_copied_words_to_unk true V inp).getD i 0 = 0) ∧
      (inp.getD i 0 < V →
        (turn_copied_words_to_unk true V inp).getD i 0 = inp.getD i 0) := by
  intro V inp i hi
  have hmap : turn_copied_words_to_unk true V inp
      = inp.map (fun t => if V - 1 < t then (0 : Nat) else t) := by
    simp [turn_copied_words_to_unk]
  have hg : (turn_copied_words_to_unk true V inp).getD i 0
      = if V - 1 < inp.getD i 0 then 0 else inp.getD i 0 := by
    rw [hmap]
    have hmain :=
      List.getD_map (l := inp) (d := 0) (n := i) (fun t => if V - 1 < t then (0 : Nat) else t)
    simpa using hmain
  refine ⟨by simp [hmap], ?_, ?_⟩
  · intro hgt
    rw [hg, if_pos (Nat.lt_of_le_of_lt (Nat.sub_le V 1) hgt)]
  · intro hlt
    rw [hg, if_neg (Nat.not_lt.mpr (Nat.le_sub_one_of_lt hlt))]

/-- Witness for C4: with vocabulary size 5, the out-of-vocabulary frontier id
7 is replaced by the unknown id 0. -/
theorem copy_frontier_oov_masked_witness :
    (turn_copied_words_to_unk true 5 [1, 7, 3]).getD 1 0 = 0 :=
  (copy_frontier_oov_masked 5 [1, 7, 3] 1 (by decide)).2.1 (by decide)

/-- Claim C10: a freshly constructed `RNNDecoderState` wraps a single encoder
tensor into a one-element tuple (and keeps a tuple as is), sets coverage to
`None`, and initializes the input feed to an all-zero tensor of shape
`(1, batch, hidden_size)` where `batch` is the hidden state's batch
dimension — the first decoding step therefore consumes a zero input feed. -/
theorem rnn_decoder_state_init_spec :
    ∀ (hidden_size : Nat) (t : Tensor3) (ts : List Tensor3) (t0 : Tensor3)
      (tl : List Tensor3),
      ((RNNDecoderState.init hidden_size (Sum.inl t)).hidden = [t] ∧
        (RNNDecoderState.init hidden_size (Sum.inl t)).coverage = none ∧
        (RNNDecoderState.init hidden_size (Sum.inl t)).input_feed.dim0 = 1 ∧
        (RNNDecoderState.init hidden_size (Sum.inl t)).input_feed.batch = t.batch ∧
        (RNNDecoderState.init hidden_size (Sum.inl t)).input_feed.dim2 = hidden_size ∧
        (∀ i j k, (RNNDecoderState.init hidden_size (Sum.inl t)).input_feed.data i j k = 0)) ∧
      (ts = t0 :: tl →
        ((RNNDecoderState.init hidden_size (Sum.inr ts)).hidden = ts ∧
          (RNNDecoderState.init hidden_size (Sum.inr ts)).coverage = none ∧
          (RNNDecoderState.init hidden_size (Sum.inr ts)).input_feed.dim0 = 1 ∧
          (RNNDecoderState.init hidden_size (Sum.inr ts)).input_feed.batch = t0.batch ∧
          (RNNDecoderState.init hidden_size (Sum.inr ts)).input_feed.dim2 = hidden_size ∧
          (∀ i j k, (RNNDecoderState.init hidden_size (Sum.inr ts)).input_feed.data i j k = 0))) := by
  intro hs t ts t0 tl
  constructor
  · exact ⟨rfl, rfl, rfl, rfl, rfl, fun _ _ _ => rfl⟩
  · rintro rfl
    exact ⟨rfl, rfl, rfl, rfl, rfl, fun _ _ _ => rfl⟩

/-- Witness for C10: initializing from the one-element tuple `[wT3]` keeps the
tuple as the hidden state. -/
theorem rnn_decoder_state_init_witness :
    (RNNDecoderState.init 4 (Sum.inr [wT3])).hidden = [wT3] :=
  ((rnn_decoder_state_init_spec 4 wT3 [wT3] wT3 []).2 rfl).1

/-- Counterexample to C6: constructing a standard (non-input-feeding) decoder
with both copy attention and coverage attention requested succeeds at setup.
`RNNDecoderBase.__init__` records `self._copy` / `self._coverage` without any
validation, so no configuration error is raised at setup time; the rejection
only happens when `StdRNNDecoder._run_forward_pass` first runs. -/
theorem std_decoder_setup_accepts_copy_coverage :
    build_decoder DecoderKind.std RnnType.LSTM true true
      = Except.ok { kind := DecoderKind.std, coverageAttn := true, copyAttn := true } := rfl

/-- Claim C6 (amended): a standard (non-input-feeding) decoder configured with
copy attention or coverage attention is rejected by the assertions at the top
of its first forward pass (`StdRNNDecoder._run_forward_pass`), before any
decoding computation, rather than producing blended behavior; any successful
standard forward pass therefore has both flags off. -/
theorem std_decoder_rejects_copy_coverage_at_first_pass :
    ∀ (nets : StdDecoderNets) (tgt : TokTensor) (memory_bank : Tensor3)
      (state : RNNDecoderState),
      (nets.copyAttn = true →
        std_run_forward_pass nets tgt memory_bank state
          = Except.error DecodeError.copyNotSupported) ∧
      (nets.copyAttn = false → nets.coverageAttn = true →
        std_run_forward_pass nets tgt memory_bank state
          = Except.error DecodeError.coverageNotSupported) ∧
      (∀ r, std_run_forward_pass nets tgt memory_bank state = Except.ok r →
        nets.copyAttn = false ∧ nets.coverageAttn = false) := by
  intro nets tgt mb state
  refine ⟨fun hc => ?_, fun hc hcov => ?_, fun r hr => ?_⟩
  · simp [std_run_forward_pass, hc]
  · simp [std_run_forward_pass, hc, hcov]
  · cases hc : nets.copyAttn with
    | true => simp [std_run_forward_pass, hc] at hr
    | false =>
      cases hcov : nets.coverageAttn with
      | true => simp [std_run_forward_pass, hc, hcov] at hr
      | false => exact ⟨rfl, rfl⟩

/-- Witness for C6 (amended): a standard decoder with copy attention on fails
its first forward pass with the copy-unsupported assertion. -/
theorem std_decoder_rejects_witness :
    std_run_forward_pass stdNetsW tokW mbW wState
      = Except.error DecodeError.copyNotSupported :=
  (std_decoder_rejects_copy_coverage_at_first_pass stdNetsW tokW mbW wState).1 rfl

/-- Counterexample to C9: with zero reported words, `_report_score` raises a
zero-division error which its `except OverflowError` clause does not catch —
the exception propagates out of the call instead of being logged locally. -/
theorem report_score_zero_division_propagates :
    report_score expOvFalse 5 0 = Except.error PyNumError.zeroDivisionError := rfl

/-- Claim C9 (amended): `_report_score` catches and logs locally exactly the
overflow of the perplexity computation; every call with a nonzero word count
returns normally, but a zero word count raises an uncaught zero-division
error that propagates out of the call. -/
theorem report_score_catches_only_overflow :
    ∀ (expOverflows : Rat → Bool) (score_total : Rat) (words_total : Int),
      (words_total ≠ 0 →
        ∃ r, report_score expOverflows score_total words_total = Except.ok r) ∧
      (words_total ≠ 0 → expOverflows (-(score_total / (words_total : Rat))) = true →
        report_score expOverflows score_total words_total
          = Except.ok ReportOutcome.overflowLogged) ∧
      (words_total = 0 →
        report_score expOverflows score_total words_total
          = Except.error PyNumError.zeroDivisionError) := by
  intro f s w
  refine ⟨fun hw => ?_, fun hw hov => ?_, fun hw => ?_⟩
  · simp only [report_score, if_neg hw]
    by_cases hov : f (-(s / (w : Rat))) = true
    · exact ⟨_, by rw [if_pos hov]⟩
    · exact ⟨_, by rw [if_neg hov]⟩
  · simp [report_score, hw, hov]
  · simp [report_score, hw]

/-- Witness for C9 (amended): with two reported words and an overflowing
exponent, the overflow is caught and logged. -/
theorem report_score_catches_only_overflow_witness :
    report_score expOvTrue 5 2 = Except.ok ReportOutcome.overflowLogged :=
  (report_score_catches_only_overflow expOvTrue 5 2).2.1 (by decide) rfl

/-- The input-feeding loop emits exactly one output and one attention row per
target step. -/
theorem input_feed_loop_lengths (nets : DecoderNets) (mb : Tensor3) :
    ∀ (embs : List Tensor2) (s : IFState),
      (input_feed_loop nets mb embs s).decoder_outputs.length = embs.length ∧
      (input_feed_loop nets mb embs s).stds.length = embs.length := by
  intro embs
  induction embs with
  | nil => intro s; exact ⟨rfl, rfl⟩
  | cons e rest ih =>
    intro s
    have h := ih (input_feed_step nets mb e s).next
    simp [input_feed_loop, h.1, h.2]

/-- With coverage attention on, the coverage trace recorded by the loop is the
running partial sum of the attention rows, seeded by the incoming coverage. -/
theorem input_feed_loop_covs_eq (nets : DecoderNets) (mb : Tensor3)
    (hcov : nets.coverageAttn = true) :
    ∀ (embs : List Tensor2) (s : IFState),
      (input_feed_loop nets mb embs s).covs
        = accum_coverage s.coverage (input_feed_loop nets mb embs s).stds := by
  intro embs
  induction embs with
  | nil => intro s; rfl
  | cons e rest ih =>
    intro s
    cases hc : s.coverage with
    | none => simp [input_feed_loop, input_feed_step, hcov, hc, accum_coverage, ih]
    | some cv => simp [input_feed_loop, input_feed_step, hcov, hc, accum_coverage, ih]

/-- The accumulated coverage list has one entry per attention row. -/
theorem accum_coverage_length :
    ∀ (as : List Tensor2) (c : Option Tensor2),
      (accum_coverage c as).length = as.length := by
  intro as
  induction as with
  | nil => intro c; cases c <;> rfl
  | cons a rest ih =>
    intro c
    cases c with
    | some cv => simp [accum_coverage, ih]
    | none => simp [accum_coverage, ih]

/-- With no incoming coverage, the first accumulated entry is the first
attention row. -/
theorem accum_coverage_head (a : Tensor2) (rest : List Tensor2) :
    (accum_coverage none (a :: rest)).getD 0 zeroT2 = a := rfl

/-- Each accumulated coverage entry is the previous one plus the current
attention row. -/
theorem accum_coverage_succ :
    ∀ (as : List Tensor2) (c : Option Tensor2) (t : Nat), t + 1 < as.length →
      (accum_coverage c as).getD (t + 1) zeroT2
        = (accum_coverage c as).getD t zeroT2 + as.getD (t + 1) zeroT2 := by
  intro as
  induction as with
  | nil => intro c t h; simp at h
  | cons a rest ih =>
    intro c t h
    cases c with
    | some cv =>
      cases t with
      | zero =>
        cases rest with
        | nil => simp at h
        | cons b rest2 => simp [accum_coverage]
      | succ t =>
        have h2 : t + 1 < rest.length := by simpa using h
        simpa [accum_coverage] using ih (some (cv + a)) t h2
    | none =>
      cases t with
      | zero =>
        cases rest with
        | nil => simp at h
        | cons b rest2 => simp [accum_coverage]
      | succ t =>
        have h2 : t + 1 < rest.length := by simpa using h
        simpa [accum_coverage] using ih (some a) t h2

/-- When the target and input-feed batch dimensions agree, the input-feeding
forward pass succeeds and returns exactly the loop results. -/
theorem input_feed_pass_eq (nets : DecoderNets) (tgt : TokTensor) (mb : Tensor3)
    (state : RNNDecoderState) (h : tgt.batch = state.input_feed.batch) :
    input_feed_run_forward_pass nets tgt mb state
      = Except.ok ((forward_loop nets tgt mb state).final.hidden,
          (forward_loop nets tgt mb state).decoder_outputs,
          { std := (forward_loop nets tgt mb state).stds,
            copy := if nets.copyAttn then some (forward_loop nets tgt mb state).stds else none,
            coverage :=
              if nets.coverageAttn then some (forward_loop nets tgt mb state).covs
              else none }) := by
  simp only [input_feed_run_forward_pass, forward_loop, Tensor3.squeeze0]
  rw [if_pos h]

/-- When the target and input-feed batch dimensions differ, the input-feeding
forward pass aborts with the size-mismatch assertion. -/
theorem input_feed_pass_mismatch (nets : DecoderNets) (tgt : TokTensor)
    (mb : Tensor3) (state : RNNDecoderState)
    (h : tgt.batch ≠ state.input_feed.batch) :
    input_feed_run_forward_pass nets tgt mb state
      = Except.error DecodeError.sizeMismatch := by
  simp only [input_feed_run_forward_pass, Tensor3.squeeze0]
  rw [if_neg h]

/-- Value of `rnn_decoder_forward` when both size checks pass: a case split on
whether the target was empty. -/
theorem rnn_decoder_forward_eq_of (nets : DecoderNets) (tgt : TokTensor)
    (mb : Tensor3) (state : RNNDecoderState) (hb : tgt.batch = mb.batch)
    (hf : tgt.batch = state.input_feed.batch) :
    rnn_decoder_forward nets tgt mb state
      = match (forward_loop nets tgt mb state).decoder_outputs.getLast? with
        | none => Except.error DecodeError.emptyTarget
        | some fo =>
          Except.ok ((forward_loop nets tgt mb state).decoder_outputs,
            RNNDecoderState.update_state
              (Sum.inr (forward_loop nets tgt mb state).final.hidden)
              fo.unsqueeze0
              (coverage_writeback
                (if nets.coverageAttn then some (forward_loop nets tgt mb state).covs
                 else none)),
            { std := (forward_loop nets tgt mb state).stds,
              copy := if nets.copyAttn then some (forward_loop nets tgt mb state).stds else none,
              coverage :=
                if nets.coverageAttn then some (forward_loop nets tgt mb state).covs
                else none }) := by
  rw [rnn_decoder_forward, if_pos hb, input_feed_pass_eq nets tgt mb state hf]

/-- Inversion of a successful `rnn_decoder_forward` call: both size checks
passed, the outputs are the loop outputs (and are nonempty), the attention
traces are the loop traces, and the new state is `update_state` of the final
hidden tuple, the `unsqueeze(0)` of the last output, and the coverage
write-back. -/
theorem rnn_decoder_forward_ok_inv {nets : DecoderNets} {tgt : TokTensor}
    {mb : Tensor3} {state : RNNDecoderState} {outs : List Tensor2}
    {st2 : RNNDecoderState} {attns2 : DecoderAttns}
    (h : rnn_decoder_forward nets tgt mb state = Except.ok (outs, st2, attns2)) :
    tgt.batch = mb.batch ∧ tgt.batch = state.input_feed.batch ∧
    outs = (forward_loop nets tgt mb state).decoder_outputs ∧
    attns2 = { std := (forward_loop nets tgt mb state).stds,
               copy := if nets.copyAttn then some (forward_loop nets tgt mb state).stds else none,
               coverage :=
                 if nets.coverageAttn then some (forward_loop nets tgt mb state).covs
                 else none } ∧
    ∃ fo, outs.getLast? = some fo ∧
      st2 = RNNDecoderState.update_state
        (Sum.inr (forward_loop nets tgt mb state).final.hidden)
        fo.unsqueeze0 (coverage_writeback attns2.coverage) := by
  by_cases hb : tgt.batch = mb.batch
  · by_cases hf : tgt.batch = state.input_feed.batch
    · rw [rnn_decoder_forward_eq_of nets tgt mb state hb hf] at h
      cases hgl : (forward_loop nets tgt mb state).decoder_outputs.getLast? with
      | none => rw [hgl] at h; simp at h
      | some fo =>
        rw [hgl] at h
        simp only [Except.ok.injEq, Prod.mk.injEq] at h
        obtain ⟨h1, h2, h3⟩ := h
        refine ⟨hb, hf, h1.symm, h3.symm, fo, ?_, ?_⟩
        · rw [← h1]; exact hgl
        · rw [← h2, ← h3]
    · rw [rnn_decoder_forward, if_pos hb,
        input_feed_pass_mismatch nets tgt mb state hf] at h
      simp at h
  · rw [rnn_decoder_forward, if_neg hb] at h
    exact absurd h (by simp)

/-- The forward-pass loop over the embedded target emits one output and one
attention row per target step. -/
theorem forward_loop_lengths (nets : DecoderNets) (tgt : TokTensor)
    (mb : Tensor3) (state : RNNDecoderState) :
    (forward_loop nets tgt mb state).decoder_outputs.length
        = (nets.embeddings tgt).length ∧
    (forward_loop nets tgt mb state).stds.length = (nets.embeddings tgt).length :=
  input_feed_loop_lengths nets mb (nets.embeddings tgt) _

/-- With coverage attention on, the forward pass's coverage trace is the
running sum of its attention rows seeded by the state's incoming coverage. -/
theorem forward_loop_covs_eq (nets : DecoderNets) (tgt : TokTensor)
    (mb : Tensor3) (state : RNNDecoderState) (hcov : nets.coverageAttn = true) :
    (forward_loop nets tgt mb state).covs
      = accum_coverage (state.coverage.map Tensor3.squeeze0)
          (forward_loop nets tgt mb state).stds :=
  input_feed_loop_covs_eq nets mb hcov (nets.embeddings tgt) _

/-- One step of the input-feeding loop makes its emitted output the next
step's input feed. -/
theorem input_feed_step_next_feed (nets : DecoderNets) (mb : Tensor3)
    (emb_t : Tensor2) (s : IFState) :
    (input_feed_step nets mb emb_t s).next.input_feed
      = (input_feed_step nets mb emb_t s).decoder_output := by
  simp only [input_feed_step]
  split <;> rfl

/-- One-step unfolding of the loop's final state on a cons. -/
theorem input_feed_loop_cons_final (nets : DecoderNets) (mb : Tensor3)
    (e : Tensor2) (rest : List Tensor2) (s : IFState) :
    (input_feed_loop nets mb (e :: rest) s).final
      = (input_feed_loop nets mb rest (input_feed_step nets mb e s).next).final := rfl

/-- One-step unfolding of the loop's outputs on a cons. -/
theorem input_feed_loop_cons_outputs (nets : DecoderNets) (mb : Tensor3)
    (e : Tensor2) (rest : List Tensor2) (s : IFState) :
    (input_feed_loop nets mb (e :: rest) s).decoder_outputs
      = (input_feed_step nets mb e s).decoder_output
        :: (input_feed_loop nets mb rest
              (input_feed_step nets mb e s).next).decoder_outputs := rfl

/-- After a nonempty loop run, the carried input feed equals the last emitted
output. -/
theorem input_feed_loop_final_feed (nets : DecoderNets) (mb : Tensor3) :
    ∀ (embs : List Tensor2) (s : IFState), embs ≠ [] →
      (input_feed_loop nets mb embs s).final.input_feed
        = (input_feed_loop nets mb embs s).decoder_outputs.getLastD zeroT2 := by
  intro embs
  induction embs with
  | nil => intro s h; exact absurd rfl h
  | cons e rest ih =>
    intro s _
    cases hr : rest with
    | nil =>
      subst hr
      simp [input_feed_loop, input_feed_step_next_feed]
    | cons b rest2 =>
      subst hr
      have houts :
          (input_feed_loop nets mb (b :: rest2)
              (input_feed_step nets mb e s).next).decoder_outputs ≠ [] := by
        intro hnil
        have hlen := (input_feed_loop_lengths nets mb (b :: rest2)
          ((input_feed_step nets mb e s).next)).1
        rw [hnil] at hlen
        simp at hlen
      obtain ⟨x, hx⟩ := Option.isSome_iff_exists.mp (List.getLast?_isSome.mpr houts)
      rw [input_feed_loop_cons_final, input_feed_loop_cons_outputs,
        ih _ (List.cons_ne_nil b rest2), List.getLastD_cons,
        List.getLastD_eq_getLast?, List.getLastD_eq_getLast?, hx]
      rfl

/-- Claim C7: a batch-dimension mismatch between the target and the memory
bank (checked in `RNNDecoderBase.forward`), or between the target and the
state's input-feed vector (checked in `InputFeedRNNDecoder._run_forward_pass`),
aborts the call with an error and no output; under equal batch dimensions
this error is unreachable. -/
theorem forward_batch_mismatch_aborts :
    (∀ (nets : DecoderNets) (tgt : TokTensor) (mb : Tensor3)
        (state : RNNDecoderState), tgt.batch ≠ mb.batch →
      rnn_decoder_forward nets tgt mb state
        = Except.error DecodeError.sizeMismatch) ∧
    (∀ (nets : DecoderNets) (tgt : TokTensor) (mb : Tensor3)
        (state : RNNDecoderState), tgt.batch ≠ state.input_feed.batch →
      input_feed_run_forward_pass nets tgt mb state
        = Except.error DecodeError.sizeMismatch) ∧
    (∀ (nets : DecoderNets) (tgt : TokTensor) (mb : Tensor3)
        (state : RNNDecoderState),
      tgt.batch = mb.batch → tgt.batch = state.input_feed.batch →
      rnn_decoder_forward nets tgt mb state
        ≠ Except.error DecodeError.sizeMismatch) := by
  refine ⟨?_, ?_, ?_⟩
  · intro nets tgt mb state hb
    rw [rnn_decoder_forward, if_neg hb]
  · intro nets tgt mb state hf
    exact input_feed_pass_mismatch nets tgt mb state hf
  · intro nets tgt mb state hb hf
    rw [rnn_decoder_forward_eq_of nets tgt mb state hb hf]
    cases hgl : (forward_loop nets tgt mb state).decoder_outputs.getLast? with
    | none => simp
    | some fo => simp

/-- Witness for C7: with matching batch dimensions (2 everywhere) the forward
call does not raise the size-mismatch error. -/
theorem forward_batch_mismatch_aborts_witness :
    rnn_decoder_forward netsW tokW mbW wState
      ≠ Except.error DecodeError.sizeMismatch :=
  forward_batch_mismatch_aborts.2.2 netsW tokW mbW wState rfl rfl

/-- Claim C8: in the input-feeding decoder, the output emitted at each step
(after optional context gating and dropout) is exactly the vector used as the
next step's input feed; after a whole pass the carried input feed equals the
last emitted output, and the state written back by `forward` has
`input_feed = unsqueeze0(last output)`. -/
theorem input_feed_equals_emitted_output :
    (∀ (nets : DecoderNets) (mb : Tensor3) (emb_t : Tensor2) (s : IFState),
      (input_feed_step nets mb emb_t s).next.input_feed
        = (input_feed_step nets mb emb_t s).decoder_output) ∧
    (∀ (nets : DecoderNets) (mb : Tensor3) (embs : List Tensor2) (s : IFState),
      embs ≠ [] →
      (input_feed_loop nets mb embs s).final.input_feed
        = (input_feed_loop nets mb embs s).decoder_outputs.getLastD zeroT2) ∧
    (∀ (nets : DecoderNets) (tgt : TokTensor) (mb : Tensor3)
        (state : RNNDecoderState) (outs : List Tensor2) (st2 : RNNDecoderState)
        (attns2 : DecoderAttns),
      rnn_decoder_forward nets tgt mb state = Except.ok (outs, st2, attns2) →
      st2.input_feed = (outs.getLastD zeroT2).unsqueeze0) := by
  refine ⟨input_feed_step_next_feed, input_feed_loop_final_feed, ?_⟩
  intro nets tgt mb state outs st2 attns2 h
  obtain ⟨hb, hf, houts, hattns, fo, hfo, hst2⟩ := rnn_decoder_forward_ok_inv h
  have hlastD : outs.getLastD zeroT2 = fo := by
    rw [List.getLastD_eq_getLast?, hfo]
    rfl
  rw [hst2, hlastD]
  rfl

/-- Witness for C8: a one-step loop run ends with its input feed equal to its
single emitted output. -/
theorem input_feed_equals_emitted_output_witness :
    (input_feed_loop netsW mbW [zeroT2] s0W).final.input_feed
      = (input_feed_loop netsW mbW [zeroT2] s0W).decoder_outputs.getLastD zeroT2 :=
  input_feed_equals_emitted_output.2.1 netsW mbW [zeroT2] s0W
    (List.cons_ne_nil zeroT2 [])

/-- Claim C5: with coverage attention enabled in the input-feeding decoder,
the recorded coverage trace has one row per step and satisfies
`coverage_t = coverage_(t-1) + attention_t`, with `coverage_0` equal to the
first step's attention when the incoming state carries no coverage; after the
pass, `forward` writes the final coverage row back into the decoder state. -/
theorem coverage_accumulates :
    (∀ (nets : DecoderNets) (mb : Tensor3) (embs : List Tensor2) (s0 : IFState),
      nets.coverageAttn = true →
      (input_feed_loop nets mb embs s0).covs.length
          = (input_feed_loop nets mb embs s0).stds.length ∧
      (∀ t, t + 1 < (input_feed_loop nets mb embs s0).covs.length →
        (input_feed_loop nets mb embs s0).covs.getD (t + 1) zeroT2
          = (input_feed_loop nets mb embs s0).covs.getD t zeroT2
            + (input_feed_loop nets mb embs s0).stds.getD (t + 1) zeroT2) ∧
      (s0.coverage = none →
        (input_feed_loop nets mb embs s0).covs.getD 0 zeroT2
          = (input_feed_loop nets mb embs s0).stds.getD 0 zeroT2)) ∧
    (∀ (nets : DecoderNets) (tgt : TokTensor) (mb : Tensor3)
        (state : RNNDecoderState) (outs : List Tensor2) (st2 : RNNDecoderState)
        (attns2 : DecoderAttns),
      nets.coverageAttn = true →
      rnn_decoder_forward nets tgt mb state = Except.ok (outs, st2, attns2) →
      ∃ covs, attns2.coverage = some covs ∧ covs ≠ [] ∧
        st2.coverage = some ((covs.getLastD zeroT2).unsqueeze0)) := by
  constructor
  · intro nets mb embs s0 hcov
    have hc := input_feed_loop_covs_eq nets mb hcov embs s0
    refine ⟨by rw [hc, accum_coverage_length], fun t ht => ?_, fun h0 => ?_⟩
    · rw [hc] at ht ⊢
      rw [accum_coverage_length] at ht
      exact accum_coverage_succ _ _ t ht
    · rw [hc, h0]
      cases hs : (input_feed_loop nets mb embs s0).stds with
      | nil => rfl
      | cons a rest => exact accum_coverage_head a rest
  · intro nets tgt mb state outs st2 attns2 hcov h
    obtain ⟨hb, hf, houts, hattns, fo, hfo, hst2⟩ := rnn_decoder_forward_ok_inv h
    have houtne : outs ≠ [] := by
      intro hnil
      rw [hnil] at hfo
      simp at hfo
    have hcovs_ne : (forward_loop nets tgt mb state).covs ≠ [] := by
      intro hnil
      have hl : (forward_loop nets tgt mb state).covs.length = 0 := by rw [hnil]; rfl
      rw [forward_loop_covs_eq nets tgt mb state hcov, accum_coverage_length,
        (forward_loop_lengths nets tgt mb state).2,
        ← (forward_loop_lengths nets tgt mb state).1] at hl
      exact (houts ▸ houtne) (List.length_eq_zero.mp hl)
    obtain ⟨c, hcl⟩ := Option.isSome_iff_exists.mp (List.getLast?_isSome.mpr hcovs_ne)
    have hgd : (forward_loop nets tgt mb state).covs.getLastD zeroT2 = c := by
      rw [List.getLastD_eq_getLast?, hcl]
      rfl
    refine ⟨(forward_loop nets tgt mb state).covs, ?_, hcovs_ne, ?_⟩
    · rw [hattns]
      simp [hcov]
    · rw [hst2]
      show coverage_writeback attns2.coverage
        = some (((forward_loop nets tgt mb state).covs.getLastD zeroT2).unsqueeze0)
      rw [hattns]
      simp [coverage_writeback, hcov, hcl, hgd]

/-- Witness for C5: a one-step run with no incoming coverage records the first
attention row as the first coverage row. -/
theorem coverage_accumulates_witness :
    (input_feed_loop netsW mbW [zeroT2] s0W).covs.getD 0 zeroT2
      = (input_feed_loop netsW mbW [zeroT2] s0W).stds.getD 0 zeroT2 :=
  (coverage_accumulates.1 netsW mbW [zeroT2] s0W rfl).2.2 rfl
